import Mathlib

/-!
Shallow embedding of the synchronization & merge engine of the
`owl-client-relationship` story-building scripts:

* `story-building/step4_full_run.py` (sync engine: title derivation,
  idempotent sub-issue fan-out, checklist merge, task cache),
* `story-building/step3_create_subissues.py` (title template path),
* `story-building/template_notebooks_from_issues.py` (notebook builder/merger),
* `story-building/update_outline_links.py` (outline linker),
* `story-building/update_outline_progress.py` (progress annotator).

Strings are modelled with Lean `String`/`List Char`; Python string helpers
(`rstrip`, `strip`, `lower`, `splitlines`, `startswith`, `str(int)`) are
reimplemented below.  Regular-expression matches in the sources are fixed
anchored patterns; each is embedded as an explicit character-list parser with
the same match semantics (maximal-munch digit/word runs, fixed literals).
`\w` and `lower()` are modelled at ASCII level, which is exact on the inputs
the patterns are used for.  Exceptions in the sources are modelled by
`Option` results; nondeterministic fresh-id generation (`uuid4`) is modelled
by an explicit id-supply function.
-/

namespace PySync

/-- ASCII whitespace characters recognised by Python `str.strip`/`rstrip`. -/
def isPySpace (c : Char) : Bool :=
  c = ' ' || c = '\t' || c = '\n' || c = '\r' || c = '\x0b' || c = '\x0c'

/-- Python `str.rstrip()` on a character list. -/
def pyRstripList (cs : List Char) : List Char :=
  (cs.reverse.dropWhile isPySpace).reverse

/-- Python `str.rstrip()`. -/
def pyRstrip (s : String) : String := ⟨pyRstripList s.data⟩

/-- Python `str.strip()` on a character list. -/
def pyStripList (cs : List Char) : List Char :=
  pyRstripList (cs.dropWhile isPySpace)

/-- Python `str.strip()`. -/
def pyStrip (s : String) : String := ⟨pyStripList s.data⟩

/-- Python `str.lower()` (ASCII). -/
def pyLower (s : String) : String := ⟨s.data.map Char.toLower⟩

/-- Python `str.startswith(pre)`. -/
def pyStartswith (s pre : String) : Bool := pre.data.isPrefixOf s.data

/-- Python `str.splitlines()` worker (terminators `\n`, `\r\n`, `\r`). -/
def pySplitlinesAux : List Char → List Char → List (List Char)
  | [], cur => if cur.isEmpty then [] else [cur.reverse]
  | '\r' :: '\n' :: rest, cur => cur.reverse :: pySplitlinesAux rest []
  | '\r' :: rest, cur => cur.reverse :: pySplitlinesAux rest []
  | '\n' :: rest, cur => cur.reverse :: pySplitlinesAux rest []
  | c :: rest, cur => pySplitlinesAux rest (c :: cur)

/-- Python `str.splitlines()`. -/
def pySplitlines (s : String) : List String :=
  (pySplitlinesAux s.data []).map fun cs => ⟨cs⟩

/-- Python `'\n'.join(lines)`. -/
def joinNl (lines : List String) : String := String.intercalate "\n" lines

/-- Split on `'\n'` (worker).  A `re.MULTILINE` `^`-anchored pattern matches
exactly at the start of each such segment. -/
def splitNlAux : List Char → List Char → List String
  | [], cur => [⟨cur.reverse⟩]
  | '\n' :: rest, cur => String.mk cur.reverse :: splitNlAux rest []
  | c :: rest, cur => splitNlAux rest (c :: cur)

/-- Split a string on `'\n'` (Python `s.split('\n')`). -/
def splitNl (s : String) : List String := splitNlAux s.data []

/-- Does `pat` occur as a substring of `hay` (Python `pat in hay`)? -/
def containsSub (hay pat : String) : Bool :=
  let rec go : List Char → Bool
    | [] => pat.data.isPrefixOf []
    | c :: rest => pat.data.isPrefixOf (c :: rest) || go rest
  go hay.data

/-- Decimal rendering of a natural number, i.e. Python `str(n)` (worker;
structurally recursive on a fuel bound `n ≤ fuel` so that it reduces). -/
def natStrAux : Nat → Nat → List Char → List Char
  | 0, n, acc => Char.ofNat (48 + n % 10) :: acc
  | fuel + 1, n, acc =>
    if n < 10 then Char.ofNat (48 + n % 10) :: acc
    else natStrAux fuel (n / 10) (Char.ofNat (48 + n % 10) :: acc)

/-- Decimal rendering of a natural number, i.e. Python `str(n)`. -/
def natStr (n : Nat) : String := ⟨natStrAux n n []⟩

/-- Numeric value of a digit-character list (most significant first). -/
def digitsVal (ds : List Char) : Nat :=
  ds.foldl (fun a c => 10 * a + (c.toNat - 48)) 0

/-- Maximal-munch parse of `\d+` at the front of a character list
(returns value and remaining characters). -/
def parseNatPrefix (cs : List Char) : Option (Nat × List Char) :=
  let ds := cs.takeWhile Char.isDigit
  if ds.isEmpty then none
  else some (digitsVal ds, cs.drop ds.length)

/-- Python regex `\w` (ASCII level): letters, digits, underscore. -/
def isWordChar (c : Char) : Bool := c.isAlphanum || c = '_'

end PySync

namespace Step4
/-!  Embedding of `story-building/step4_full_run.py`.  Environment flags are
fixed at their defaults: `STORY_PREFIX = 'Story #'`, `DRY_RUN` off,
`ONLY_ISSUES`/`START_AT`/`SKIP_IF_HAS_SUBISSUES` unset.  Issue creation and
HTTP reads are modelled as always succeeding; tracker-assigned issue numbers
and fetched child titles are supplied as explicit functions. -/

open PySync

/-- A tracker issue as used by the sync engine (number, title, body). -/
structure Issue where
  number : Nat
  title : String
  body : String
  deriving DecidableEq, Repr

/-- A decomposition-produced task descriptor. -/
structure Task where
  title : String
  description : String
  deriving DecidableEq, Repr

/-- `STORY_PREFIX` default. -/
def STORY_PREFIX : String := "Story #"

/-- The fully rendered sub-issue title prefix `Story #<parent> – `. -/
def renderedPrefix (parentNumber : Nat) : String :=
  "Story #" ++ natStr parentNumber ++ " – "

/-- `sub_issue_title_has_prefix` (line 418). -/
def sub_issue_title_has_prefix (title : String) (parentNumber : Nat) : Bool :=
  pyStartswith title (renderedPrefix parentNumber)

/-- The sub-issue title derivation of `process_parent` (lines 384-386):
prefix the raw title unless it already carries the rendered prefix. -/
def deriveSubTitle (parentNumber : Nat) (rawTitle : String) : String :=
  if sub_issue_title_has_prefix rawTitle parentNumber then rawTitle
  else STORY_PREFIX ++ natStr parentNumber ++ " – " ++ rawTitle

/-- `existing_subissue_titles_for`: map from existing sub-issue title to
number, for titles matching `^Story #<parent> – `. -/
def existing_subissue_titles_for (parentNumber : Nat) (repoIssues : List Issue) :
    List (String × Nat) :=
  repoIssues.filterMap fun it =>
    if pyStartswith it.title (renderedPrefix parentNumber) then
      some (it.title, it.number)
    else none

/-- Step4 checklist-line pattern `^- \[.\] #(\d+)` applied to one line. -/
def parseChecklistNum (l : String) : Option Nat :=
  match l.data with
  | '-' :: ' ' :: '[' :: c :: ']' :: ' ' :: '#' :: rest =>
    if c = '\n' then none
    else
      match parseNatPrefix rest with
      | some (n, _) => some n
      | none => none
  | _ => none

/-- `extract_existing_child_numbers` (lines 347-355): all checklist child
numbers referenced in a body (`re.MULTILINE` scan = per-`\n`-line scan). -/
def extract_existing_child_numbers (body : String) : List Nat :=
  (splitNl body).filterMap parseChecklistNum

/-- Is a line the `### Sub-issues` section header
(`l.strip().lower().startswith('### sub-issues')`)? -/
def isSubIssuesHeader (l : String) : Bool :=
  pyStartswith (pyLower (pyStrip l)) "### sub-issues"

/-- A freshly appended checklist entry `- [ ] #<n> — <title>`. -/
def checklistEntryLine (titleOf : Nat → String) (n : Nat) : String :=
  "- [ ] #" ++ natStr n ++ " — " ++ titleOf n

/-- The line-list construction inside `append_checklist` (lines 307-335):
`none` when no write happens. `titleOf` models the fresh title fetched for
each appended child. -/
def appendChecklistLines (body : String) (newChildNumbers : List Nat)
    (titleOf : Nat → String) : Option (List String) :=
  if newChildNumbers.isEmpty then none
  else
    let existingNums := extract_existing_child_numbers body
    let addNums := newChildNumbers.filter fun n => !existingNums.contains n
    if addNums.isEmpty then none
    else
      let lines0 := pySplitlines (pyRstrip body)
      let lines1 :=
        if lines0 ≠ [] && pyStrip (lines0.getLastD "") ≠ "" then lines0 ++ [""]
        else lines0
      let lines2 :=
        if !(lines1.any isSubIssuesHeader) then lines1 ++ ["### Sub-issues"]
        else lines1
      some (lines2 ++ addNums.map (checklistEntryLine titleOf))

/-- `append_checklist` (lines 307-344): resulting new parent body, or `none`
when nothing is written. -/
def append_checklist (body : String) (newChildNumbers : List Nat)
    (titleOf : Nat → String) : Option String :=
  (appendChecklistLines body newChildNumbers titleOf).map fun lines =>
    pyRstrip (joinNl lines) ++ "\n"

/-- Body text generated for a new sub-issue (`process_parent` lines 390-396). -/
def subIssueBody (parentNumber : Nat) (parentTitle : String) (t : Task) : String :=
  pyRstrip (joinNl
    [ "Derived from parent Story #" ++ natStr parentNumber ++ ": " ++ parentTitle
    , "PARENT-STORY: #" ++ natStr parentNumber
    , ""
    , if t.description = "" then "(no description provided)" else t.description ])
    ++ "\n"

/-- The creation loop of `process_parent` (lines 381-411): walks the task
list, skipping tasks whose derived title is in the existing-title map and
creating the rest (all creations succeed; `numberOf` supplies the
tracker-assigned numbers in creation order).
Returns (created issues in order, created numbers, skipped count). -/
def createLoop (existingTitles : List String) (parentNumber : Nat)
    (parentTitle : String) (numberOf : Nat → Nat) :
    List Task → Nat → List Issue × List Nat × Nat
  | [], _ => ([], [], 0)
  | t :: ts, k =>
    let subTitle := deriveSubTitle parentNumber t.title
    if existingTitles.contains subTitle then
      let r := createLoop existingTitles parentNumber parentTitle numberOf ts k
      (r.1, r.2.1, r.2.2 + 1)
    else
      let r := createLoop existingTitles parentNumber parentTitle numberOf ts (k + 1)
      (⟨numberOf k, subTitle, subIssueBody parentNumber parentTitle t⟩ :: r.1,
        numberOf k :: r.2.1, r.2.2)

/-- Replace the body of issue `num` in the tracker state (the PATCH in
`append_checklist`); `none` means no write. -/
def patchBody (issues : List Issue) (num : Nat) : Option String → List Issue
  | none => issues
  | some b => issues.map fun it => if it.number = num then { it with body := b } else it

/-- Current body of issue `num` (the GET in `append_checklist`);
missing issue reads as empty body. -/
def bodyOf (issues : List Issue) (num : Nat) : String :=
  match issues.find? fun it => it.number = num with
  | some it => it.body
  | none => ""

/-- Per-parent outcome report. -/
structure Report where
  created : Nat
  skipped : Nat
  wrote : Bool
  deriving DecidableEq, Repr

/-- `process_parent` (lines 358-415) against tracker state `issues`:
decomposition descriptors are `tasks` (fixed external input — the cached /
deterministic decomposition for this parent).  Returns the new tracker state
and the report. -/
def process_parent (issues : List Issue) (parentNumber : Nat)
    (parentTitle : String) (tasks : List Task) (numberOf : Nat → Nat)
    (titleOf : Nat → String) : List Issue × Report :=
  let existingTitles :=
    (existing_subissue_titles_for parentNumber issues).map Prod.fst
  let r := createLoop existingTitles parentNumber parentTitle numberOf tasks 0
  let issues1 := issues ++ r.1
  let write := append_checklist (bodyOf issues1 parentNumber) r.2.1 titleOf
  (patchBody issues1 parentNumber write,
    ⟨r.1.length, r.2.2, write.isSome⟩)

/-- The `main` loop (lines 441-449): process each project parent in turn,
refreshing the repo-issue state between parents. -/
def fullRun (parents : List (Nat × String)) (tasksOf : Nat → List Task)
    (numberOf : Nat → Nat → Nat) (titleOf : Nat → String)
    (issues : List Issue) : List Issue × List Report :=
  match parents with
  | [] => (issues, [])
  | (pnum, ptitle) :: rest =>
    let r := process_parent issues pnum ptitle (tasksOf pnum) (numberOf pnum) titleOf
    let rr := fullRun rest tasksOf numberOf titleOf r.1
    (rr.1, r.2 :: rr.2)

end Step4

namespace Step3
/-!  Embedding of the title construction in `story-building/step3_create_subissues.py`
(`ISSUE_TITLE_PREFIX_TEMPLATE = "Story #{parent} – {title}"`, applied in `main`
lines 312-315 to the stripped raw task title, unconditionally). -/

open PySync

/-- `ISSUE_TITLE_PREFIX_TEMPLATE.format(parent=p, title=raw_title.strip())`. -/
def issueTitle (parentNumber : Nat) (rawTitle : String) : String :=
  "Story #" ++ natStr parentNumber ++ " – " ++ pyStrip rawTitle

end Step3

namespace Outline
/-!  Shared parser for the two-line mermaid task-node label used by
`update_outline_links.py` and `update_outline_progress.py`.  Both regexes
open with the same group `\s*P\w+\["- \[(?P<mark> |x)\] ` (in
`update_outline_progress.py` the mark alternatives are written `[ x]`-style
with the same two marks).  `parseNodeShape` returns the matched prefix
characters (through `["- [`), the mark, and the remaining characters after
the literal `] `. -/

open PySync

/-- Parse `\s*P\w+\["- \[( |x)\] ` at the start of a line; returns
(prefix chars up to and including `["- [`, mark, remainder after `] `). -/
def parseNodeShape (line : String) : Option (List Char × Char × List Char) :=
  let cs := line.data
  let ws := cs.takeWhile isPySpace
  match cs.drop ws.length with
  | 'P' :: cs2 =>
    let w := cs2.takeWhile isWordChar
    if w.isEmpty then none
    else
      match cs2.drop w.length with
      | '[' :: '"' :: '-' :: ' ' :: '[' :: m :: ']' :: ' ' :: rest =>
        if m = ' ' || m = 'x' then
          some (ws ++ 'P' :: w ++ ['[', '"', '-', ' ', '['], m, rest)
        else none
      | _ => none
  | _ => none

end Outline

namespace OutlineLinks
/-!  Embedding of `update_lines` in `story-building/update_outline_links.py`
(lines 120-175), restricted to the per-line rewrite; the mermaid click
directive regeneration is a separate pass not covered by the claims. -/

open PySync Outline

/-- A project issue as consulted by the linker (GraphQL `state` values are
`"OPEN"` / `"CLOSED"`). -/
structure LinkIssue where
  url : String
  state : String
  deriving DecidableEq, Repr

/-- First index of `pat` in `cs` (Python `str.find`), if any. -/
def findSub : List Char → List Char → Option Nat
  | [], pat => if pat.isPrefixOf ([] : List Char) then some 0 else none
  | c :: rest, pat =>
    if pat.isPrefixOf (c :: rest) then some 0
    else (findSub rest pat).map (· + 1)

/-- `first_line_pat` (lines 124-125):
`^(\s*P\w+\["- \[)( |x)(\] )(?!\[)(.+?)(\s{2})$`.
Returns (prefix, mark, rest group, two-char whitespace trail). -/
def first_line_match (line : String) :
    Option (List Char × Char × List Char × List Char) :=
  match parseNodeShape line with
  | none => none
  | some (pre, mark, rest) =>
    if rest.head? = some '[' then none
    else if rest.length ≥ 3 then
      let core := rest.take (rest.length - 2)
      let trail := rest.drop (rest.length - 2)
      if trail.all isPySpace && core.all (· ≠ '\n') then
        some (pre, mark, core, trail)
      else none
    else none

/-- The body of the `update_lines` loop for one matched line (lines 136-166):
rewrites the first line of a task node, given the following line and the
title-indexed issue map.  Non-matching lines are returned unchanged. -/
def update_first_line (issuesByTitle : String → Option LinkIssue)
    (line nextLine : String) : String :=
  match first_line_match line with
  | none => line
  | some (pre, mark, core, trail) =>
    if containsSub nextLine "[[notebooks/" then
      let rawTitle := pyStripList core
      let isLinked := rawTitle.head? = some '[' && containsSub ⟨rawTitle⟩ "]("
      let plainTitle :=
        if isLinked then
          match findSub rawTitle "](".data with
          | some e => (rawTitle.drop 1).take (e - 1)
          | none => rawTitle
        else rawTitle
      match issuesByTitle ⟨plainTitle⟩ with
      | some issue =>
        let desiredMark := if issue.state = "CLOSED" then 'x' else mark
        let linkedTitle :=
          if !isLinked then
            '[' :: plainTitle ++ ']' :: '(' :: issue.url.data ++ [')']
          else rawTitle
        ⟨pre ++ desiredMark :: ']' :: ' ' :: linkedTitle ++ trail⟩
      | none => line
    else line

end OutlineLinks

namespace OutlineProgress
/-!  Embedding of `story-building/update_outline_progress.py`:
`compute_progress` (lines 87-97) and the per-line body of `annotate_lines`
(lines 100-123). -/

open PySync Outline

/-- A repo issue as consulted by the annotator (REST `state` values are
`"open"` / `"closed"`). -/
structure ProgIssue where
  state : String
  body : String
  deriving DecidableEq, Repr

/-- `CHECKLIST_CHILD` pattern `^- \[(?: |x|X)\] #(\d+)` applied to one line
(shared by `update_outline_progress.py` and
`template_notebooks_from_issues.py`). -/
def parseChecklistChild (l : String) : Option Nat :=
  match l.data with
  | '-' :: ' ' :: '[' :: c :: ']' :: ' ' :: '#' :: rest =>
    if c = ' ' || c = 'x' || c = 'X' then
      (parseNatPrefix rest).map Prod.fst
    else none
  | _ => none

/-- `extract_child_numbers` (lines 77-84). -/
def extract_child_numbers (body : String) : List Nat :=
  (splitNl body).filterMap parseChecklistChild

/-- Python 3 `round` to the nearest integer with ties to even, on the exact
rational `num / den` (`den ≠ 0`); the float arithmetic of the source is
modelled exactly. -/
def roundHalfEven (num den : Nat) : Nat :=
  let q := num / den
  let r := num % den
  if 2 * r < den then q
  else if den < 2 * r then q + 1
  else if q % 2 = 0 then q else q + 1

/-- `compute_progress` (lines 87-97): (closed, total, percent). -/
def compute_progress (parent : ProgIssue) (issueMap : Nat → Option ProgIssue) :
    Nat × Nat × Nat :=
  let childNums := extract_child_numbers parent.body
  let total := childNums.length
  let closed :=
    (childNums.filter fun n =>
      match issueMap n with
      | some child => child.state = "closed"
      | none => false).length
  let percent := if total = 0 then 0 else roundHalfEven (closed * 100) total
  (closed, total, percent)

/-- Expect one given character at the front of the input. -/
def expectChar (c : Char) : List Char → Option (List Char)
  | x :: rest => if x = c then some rest else none
  | [] => none

/-- Consume a nonempty maximal run of characters satisfying `p`. -/
def munch1 (p : Char → Bool) (cs : List Char) : Option (List Char) :=
  match cs.takeWhile p with
  | [] => none
  | ds => some (cs.drop ds.length)

/-- Match `PROGRESS_ANNOTATION` = `\s*\(\d+/\d+\s+•\s+\d+%\)` at the start
of the input; returns the remainder after the match. -/
def matchAnnot (cs : List Char) : Option (List Char) := do
  let r1 ← expectChar '(' (cs.dropWhile isPySpace)
  let r2 ← munch1 Char.isDigit r1
  let r3 ← expectChar '/' r2
  let r4 ← munch1 Char.isDigit r3
  let r5 ← munch1 isPySpace r4
  let r6 ← expectChar '•' r5
  let r7 ← munch1 isPySpace r6
  let r8 ← munch1 Char.isDigit r7
  let r9 ← expectChar '%' r8
  expectChar ')' r9

/-- Scan worker for `removeAnnotations`; structurally recursive on a fuel
bound.  `matchAnnot_length` shows every match consumes at least one
character, so with fuel = input length the fuel-exhausted arm is never
reached. -/
def removeAnnotationsAux : Nat → List Char → List Char
  | _, [] => []
  | 0, cs => cs
  | fuel + 1, c :: rest =>
    match matchAnnot (c :: rest) with
    | some tail => removeAnnotationsAux fuel tail
    | none => c :: removeAnnotationsAux fuel rest

/-- `PROGRESS_ANNOTATION.sub('', ·)`: remove every (leftmost, non-overlapping)
occurrence of the annotation pattern. -/
def removeAnnotations (cs : List Char) : List Char :=
  removeAnnotationsAux cs.length cs

/-- `PARENT_LINK_LINE` (line 72):
`^(\s*P\w+\["- \[)( |x)(\] )(\[[^\]]+\]\(https://github.com/[^\)]+/issues/(\d+)\))(.*)$`.
Returns (prefix, mark, link group chars, issue number, rest group). -/
def parseParentLink (line : String) :
    Option (List Char × Char × List Char × Nat × List Char) :=
  match parseNodeShape line with
  | none => none
  | some (pre, mark, r) =>
    match r with
    | '[' :: r1 =>
      let lt := r1.takeWhile (· ≠ ']')
      if lt.isEmpty then none
      else
        match r1.drop lt.length with
        | ']' :: '(' :: r2 =>
          if "https://github.com/".data.isPrefixOf r2 then
            let r3 := r2.drop 19
            let u := r3.takeWhile (· ≠ ')')
            match r3.drop u.length with
            | ')' :: tail =>
              let dRev := u.reverse.takeWhile Char.isDigit
              if dRev.isEmpty then none
              else
                let beforeD := u.take (u.length - dRev.length)
                if "/issues/".data.isSuffixOf beforeD && 8 < beforeD.length then
                  some (pre, mark,
                    '[' :: lt ++ ']' :: '(' :: "https://github.com/".data ++ u ++ [')'],
                    digitsVal dRev.reverse, tail)
                else none
            | _ => none
          else none
        | _ => none
    | _ => none

/-- The per-line body of `annotate_lines` (lines 103-121). -/
def annotate_line (includeZero : Bool) (issueMap : Nat → Option ProgIssue)
    (line : String) : String :=
  match parseParentLink line with
  | none => line
  | some (pre, mark, link, num, rest) =>
    match issueMap num with
    | none => line
    | some parent =>
      let cp := compute_progress parent issueMap
      if 0 < cp.2.1 ∨ includeZero = true then
        let restClean := removeAnnotations rest
        let trailingTwo : List Char :=
          if [' ', ' '].isSuffixOf restClean then [' ', ' '] else []
        let restCore :=
          if trailingTwo.isEmpty then restClean
          else restClean.take (restClean.length - 2)
        let annotation : List Char :=
          (" (" ++ natStr cp.1 ++ "/" ++ natStr cp.2.1 ++ " • " ++
            natStr cp.2.2 ++ "%)").data
        ⟨pre ++ mark :: ']' :: ' ' :: link ++ restCore ++ annotation ++ trailingTwo⟩
      else line

end OutlineProgress

namespace TemplateNb
/-!  Embedding of `story-building/template_notebooks_from_issues.py`:
builder-mode construction (`build_notebook_json`, lines 156-199) and merge
mode (`update_header_cell` lines 251-268, `ensure_cell_ids` lines 271-277,
`append_new_subissue_sections` lines 280-307, composed as in `main` lines
350-352).  A notebook is its ordered cell list; each cell carries the fields
the merge code reads or writes (`id`, `cell_type`, `source`) — the remaining
JSON fields (`metadata`, `outputs`, `execution_count`, notebook-level
metadata and the repair of missing structural keys) are never read or
written per-cell by these functions and are elided.  `uuid.uuid4()` id
generation is modelled by an explicit supply `fresh : Nat → String` applied
at successive indices. -/

open PySync

/-- A notebook cell (`id`, `cell_type`, `source`). -/
structure NbCell where
  id : Option String
  cellType : String
  source : List String
  deriving DecidableEq, Repr

/-- A notebook: its ordered cell list. -/
structure Notebook where
  cells : List NbCell
  deriving DecidableEq, Repr

/-- An issue as consumed by the notebook code
(`number`, `title`, `html_url`/`url`, `state`, `body`). -/
structure NbIssue where
  number : Nat
  title : String
  url : String
  state : String
  body : String
  deriving DecidableEq, Repr

/-- `SUB_ISSUE_HEADING_RE` = `^### Sub-issue #(\d+):` applied to a stripped
line. -/
def parseSubIssueHeading (l : String) : Option Nat :=
  let cs := (pyStrip l).data
  if "### Sub-issue #".data.isPrefixOf cs then
    match parseNatPrefix (cs.drop 15) with
    | some (n, ':' :: _) => some n
    | _ => none
  else none

/-- One step of `sanitize_description`'s line loop (lines 135-153);
the Boolean is the `skip_notebook` flag. -/
def sanitizeAux : Bool → List String → List String
  | _, [] => []
  | skip, l :: ls =>
    if pyLower (pyStrip l) = "### notebook" then sanitizeAux true ls
    else if skip && !pyStartswith l "### " then sanitizeAux true ls
    else if (OutlineProgress.parseChecklistChild (pyStrip l)).isSome then
      sanitizeAux false ls
    else l :: sanitizeAux false ls

/-- `sanitize_description` (lines 135-153). -/
def sanitize_description (body : String) : String :=
  pyStrip (joinNl (sanitizeAux false (pySplitlines body)))

/-- The markdown source text of a sub-issue section cell (lines 185, 303). -/
def sectionMd (ch : NbIssue) : String :=
  "### Sub-issue #" ++ natStr ch.number ++ ": " ++ ch.title ++
    "\n\nLink: [#" ++ natStr ch.number ++ "](" ++ ch.url ++ ")\n\nStatus: " ++
    ch.state ++ "\n\nImplementation Notes:"

/-- Header cell lines (lines 173, 261). -/
def headerLines (p : NbIssue) : List String :=
  ["# " ++ p.title, "",
   "Parent Issue: [#" ++ natStr p.number ++ "](" ++ p.url ++ ")",
   "Status: " ++ p.state]

/-- Per-child section (and optional placeholder) cells, appended in input
order; `k` is the next fresh-id index. -/
def childCells (includePlaceholders : Bool) (fresh : Nat → String) :
    List NbIssue → Nat → List NbCell
  | [], _ => []
  | ch :: rest, k =>
    let sec : NbCell := ⟨some (fresh k), "markdown", pySplitlines (sectionMd ch)⟩
    if includePlaceholders then
      sec ::
        ⟨some (fresh (k + 1)), "code",
          pySplitlines ("# TODO: code / experiments for sub-issue #" ++ natStr ch.number)⟩ ::
        childCells includePlaceholders fresh rest (k + 2)
    else sec :: childCells includePlaceholders fresh rest (k + 1)

/-- `build_notebook_json` (lines 156-199), cells before the per-child
sections: header cell, optional description cell, and the
`## Sub-Issues Overview` cell when there are children. -/
def preambleCells (parent : NbIssue) (childIssues : List NbIssue)
    (fresh : Nat → String) : List NbCell :=
  let description := sanitize_description parent.body
  let header : NbCell :=
    ⟨some (fresh 0), "markdown", pySplitlines (joinNl (headerLines parent))⟩
  let cells1 :=
    if description ≠ "" then
      [header, ⟨some (fresh 1), "markdown", pySplitlines description⟩]
    else [header]
  if childIssues ≠ [] then
    cells1 ++ [⟨some (fresh cells1.length), "markdown",
      pySplitlines "## Sub-Issues Overview"⟩]
  else cells1

/-- `build_notebook_json` (lines 156-199). -/
def build_notebook_json (parent : NbIssue) (childIssues : List NbIssue)
    (includePlaceholders : Bool) (fresh : Nat → String) : Notebook :=
  let cells2 := preambleCells parent childIssues fresh
  ⟨cells2 ++ childCells includePlaceholders fresh childIssues cells2.length⟩

/-- Set every cell id to `none` (erase the opaque ids). -/
def eraseIds (nb : Notebook) : Notebook :=
  ⟨nb.cells.map fun c => { c with id := none }⟩

/-- The pair of a cell's fields that the merge must preserve on non-header
cells. -/
def cellContent (c : NbCell) : String × List String := (c.cellType, c.source)

/-- `extract_existing_subissue_numbers` (lines 234-248). -/
def extract_existing_subissue_numbers (nb : Notebook) : List Nat :=
  (nb.cells.filter fun c => c.cellType = "markdown").flatMap fun c =>
    c.source.filterMap parseSubIssueHeading

/-- Python `l.rstrip('\n')`. -/
def stripNlRight (l : String) : String :=
  ⟨(l.data.reverse.dropWhile (· = '\n')).reverse⟩

/-- The header-refresh decision of `update_header_cell` (lines 257-266):
replace the first cell's source by the desired header lines when the
existing first line differs (or is absent), or under `REFRESH_STATUS`. -/
def refreshedHeaderCell (first : NbCell) (parent : NbIssue)
    (refreshStatus : Bool) : NbCell :=
  let desired := headerLines parent
  let existingLines := first.source.map stripNlRight
  if existingLines.isEmpty ∨ existingLines.head? ≠ desired.head? ∨ refreshStatus = true then
    { first with source := desired }
  else first

/-- `update_header_cell` (lines 251-268); returns the notebook and the next
fresh-id index. -/
def update_header_cell (nb : Notebook) (parent : NbIssue)
    (refreshStatus : Bool) (fresh : Nat → String) (k : Nat) : Notebook × Nat :=
  match nb.cells with
  | [] => (nb, k)
  | first :: rest =>
    if first.cellType ≠ "markdown" then (nb, k)
    else
      let first1 := refreshedHeaderCell first parent refreshStatus
      if first1.id = none then
        (⟨{ first1 with id := some (fresh k) } :: rest⟩, k + 1)
      else (⟨first1 :: rest⟩, k)

/-- `ensure_cell_ids` (lines 271-277); returns the cells and the next
fresh-id index. -/
def ensureCellIds (fresh : Nat → String) :
    List NbCell → Nat → List NbCell × Nat
  | [], k => ([], k)
  | c :: cs, k =>
    if c.id = none then
      let r := ensureCellIds fresh cs (k + 1)
      ({ c with id := some (fresh k) } :: r.1, r.2)
    else
      let r := ensureCellIds fresh cs k
      (c :: r.1, r.2)

/-- `append_new_subissue_sections` (lines 280-307). -/
def append_new_subissue_sections (nb : Notebook) (childIssues : List NbIssue)
    (includePlaceholders : Bool) (fresh : Nat → String) (k : Nat) : Notebook :=
  let existingNums := extract_existing_subissue_numbers nb
  let toAdd := childIssues.filter fun ci => !existingNums.contains ci.number
  if toAdd.isEmpty then nb
  else
    let hasOverview := nb.cells.any fun c =>
      c.cellType = "markdown" &&
        c.source.any fun line => pyStrip line = "## Sub-Issues Overview"
    let cells1 :=
      if !hasOverview then
        nb.cells ++ [⟨some (fresh k), "markdown",
          pySplitlines "## Sub-Issues Overview"⟩]
      else nb.cells
    let k1 := if !hasOverview then k + 1 else k
    ⟨cells1 ++ childCells includePlaceholders fresh toAdd k1⟩

/-- The merge-mode pipeline of `main` (lines 350-352): header refresh, id
repair, then section append. -/
def mergeNotebook (nb : Notebook) (parent : NbIssue)
    (childIssues : List NbIssue) (refreshStatus includePlaceholders : Bool)
    (fresh : Nat → String) : Notebook :=
  let r1 := update_header_cell nb parent refreshStatus fresh 0
  let r2 := ensureCellIds fresh r1.1.cells r1.2
  append_new_subissue_sections ⟨r2.1⟩ childIssues includePlaceholders fresh r2.2

end TemplateNb

namespace Cache
/-!  Embedding of the task-cache reading path of
`story-building/step4_full_run.py`: `load_cached_tasks` (lines 258-275) and
the task-obtaining step of `process_parent` (lines 369-377).  The cache file
is modelled as `Option (Option Json)`: `none` = file missing,
`some none` = unreadable or not JSON (the caught-exception path),
`some (some j)` = file parsed to the JSON value `j`. -/

/-- A JSON value. -/
inductive Json where
  | null
  | bool (b : Bool)
  | num (n : Int)
  | str (s : String)
  | arr (items : List Json)
  | obj (fields : List (String × Json))

/-- A cached task entry `{'title': ..., 'description': ...}`. -/
structure CachedTask where
  title : Json
  description : Json

/-- Python `dict` key lookup on a field list. -/
def lookupKey (fields : List (String × Json)) (k : String) : Option Json :=
  (fields.find? fun kv => kv.1 = k).map Prod.snd

/-- `load_cached_tasks` (lines 258-275). -/
def load_cached_tasks (cacheTasks : Bool) (file : Option (Option Json)) :
    List CachedTask :=
  if !cacheTasks then []
  else
    match file with
    | none => []
    | some none => []
    | some (some (Json.arr items)) =>
      items.filterMap fun it =>
        match it with
        | Json.obj fields =>
          match lookupKey fields "title" with
          | some t =>
            some ⟨t, (lookupKey fields "description").getD (Json.str "")⟩
          | none => none
        | _ => none
    | some (some _) => []

/-- The task-obtaining step of `process_parent` (lines 369-377): cached tasks
when enabled and nonempty, otherwise the decomposition service result. -/
def obtain_tasks (cacheTasks regenerateTasks : Bool)
    (file : Option (Option Json)) (gptTasks : List CachedTask) :
    List CachedTask :=
  let tasks :=
    if cacheTasks && !regenerateTasks then load_cached_tasks cacheTasks file
    else []
  if tasks.isEmpty then gptTasks else tasks

end Cache

/-! ## Helper lemmas -/

namespace OutlineProgress

open PySync

theorem expectChar_length {c : Char} {cs r : List Char}
    (h : expectChar c cs = some r) : r.length < cs.length := by
  match cs with
  | [] => simp [expectChar] at h
  | x :: rest =>
    simp only [expectChar] at h
    split at h
    · cases h; simp
    · cases h

theorem munch1_length {p : Char → Bool} {cs r : List Char}
    (h : munch1 p cs = some r) : r.length ≤ cs.length := by
  simp only [munch1] at h
  split at h
  · cases h
  · cases h; simp [List.length_drop]

theorem length_dropWhile_le (p : Char → Bool) (l : List Char) :
    (l.dropWhile p).length ≤ l.length := by
  induction l with
  | nil => simp
  | cons c cs ih =>
    by_cases h : p c
    · simp [List.dropWhile, h]
      omega
    · simp [List.dropWhile, h]

/-- Every `PROGRESS_ANNOTATION` match consumes at least one character, so
the fuel bound of `removeAnnotationsAux` is never exhausted. -/
theorem matchAnnot_length {cs tail : List Char}
    (h : matchAnnot cs = some tail) : tail.length < cs.length := by
  simp only [matchAnnot, bind, Option.bind_eq_some] at h
  obtain ⟨r1, h1, r2, h2, r3, h3, r4, h4, r5, h5, r6, h6, r7, h7, r8, h8, r9, h9, h10⟩ := h
  have l0 : (cs.dropWhile isPySpace).length ≤ cs.length := length_dropWhile_le isPySpace cs
  have l1 := expectChar_length h1
  have l2 := munch1_length h2
  have l3 := expectChar_length h3
  have l4 := munch1_length h4
  have l5 := munch1_length h5
  have l6 := expectChar_length h6
  have l7 := munch1_length h7
  have l8 := munch1_length h8
  have l9 := expectChar_length h9
  have l10 := expectChar_length h10
  omega

/-- With sufficient fuel the scan result does not depend on the fuel. -/
theorem removeAnnotationsAux_fuel_irrel : ∀ (f₁ : Nat) (cs : List Char) (f₂ : Nat),
    cs.length ≤ f₁ → cs.length ≤ f₂ →
    removeAnnotationsAux f₁ cs = removeAnnotationsAux f₂ cs := by
  intro f₁
  induction f₁ with
  | zero =>
    intro cs f₂ h₁ _
    have : cs = [] := List.length_eq_zero.mp (by omega)
    subst this
    cases f₂ <;> rfl
  | succ g₁ ih =>
    intro cs f₂ h₁ h₂
    cases cs with
    | nil => cases f₂ <;> rfl
    | cons c rest =>
      cases f₂ with
      | zero => simp at h₂
      | succ g₂ =>
        rw [removeAnnotationsAux, removeAnnotationsAux]
        cases h : matchAnnot (c :: rest) with
        | some tail =>
          have hlt := matchAnnot_length h
          simp only [List.length_cons] at hlt h₁ h₂
          simp only [h]
          exact ih tail g₂ (by omega) (by omega)
        | none =>
          simp only [List.length_cons] at h₁ h₂
          simp only [h]
          rw [ih rest g₂ (by omega) (by omega)]

end OutlineProgress

namespace PySync

theorem natStrAux_append (fuel : Nat) : ∀ (n : Nat) (acc : List Char),
    natStrAux fuel n acc = natStrAux fuel n [] ++ acc := by
  induction fuel with
  | zero => intro n acc; simp [natStrAux]
  | succ fuel ih =>
    intro n acc
    by_cases h : n < 10
    · simp [natStrAux, h]
    · rw [natStrAux, if_neg h, natStrAux, if_neg h,
        ih (n / 10) (Char.ofNat (48 + n % 10) :: acc),
        ih (n / 10) [Char.ofNat (48 + n % 10)]]
      simp

theorem natStrAux_fuel_irrel : ∀ (f₁ f₂ n : Nat) (acc : List Char),
    n ≤ f₁ → n ≤ f₂ → natStrAux f₁ n acc = natStrAux f₂ n acc := by
  intro f₁
  induction f₁ with
  | zero =>
    intro f₂ n acc h₁ _
    have hn : n = 0 := by omega
    subst hn
    cases f₂ with
    | zero => rfl
    | succ g => simp [natStrAux]
  | succ g₁ ih =>
    intro f₂ n acc h₁ h₂
    by_cases h : n < 10
    · cases f₂ with
      | zero =>
        have hn : n = 0 := by omega
        subst hn
        simp [natStrAux]
      | succ g₂ => simp [natStrAux, h]
    · cases f₂ with
      | zero => omega
      | succ g₂ =>
        rw [natStrAux, if_neg h, natStrAux, if_neg h]
        have hd : n / 10 < n := Nat.div_lt_self (by omega) (by omega)
        exact ih g₂ (n / 10) _ (by omega) (by omega)

theorem natStr_data_lt {n : Nat} (h : n < 10) :
    (natStr n).data = [Char.ofNat (48 + n % 10)] := by
  show natStrAux n n [] = _
  cases n with
  | zero => rfl
  | succ k => simp [natStrAux, h]

theorem natStr_data_ge {n : Nat} (h : 10 ≤ n) :
    (natStr n).data = (natStr (n / 10)).data ++ [Char.ofNat (48 + n % 10)] := by
  show natStrAux n n [] = natStrAux (n / 10) (n / 10) [] ++ _
  match n, h with
  | m + 1, h =>
    rw [natStrAux, if_neg (by omega),
      natStrAux_fuel_irrel m ((m + 1) / 10) ((m + 1) / 10) _ (by omega) (by omega),
      natStrAux_append]

theorem digit_isDigit {k : Nat} (hk : k < 10) :
    (Char.ofNat (48 + k)).isDigit = true := by
  interval_cases k <;> decide

theorem natStr_digits (n : Nat) : ∀ c ∈ (natStr n).data, c.isDigit = true := by
  induction n using Nat.strong_induction_on with
  | _ n ih =>
    by_cases h : n < 10
    · rw [natStr_data_lt h]
      intro c hc
      rcases List.mem_singleton.mp hc with rfl
      exact digit_isDigit (Nat.mod_lt _ (by omega))
    · rw [natStr_data_ge (by omega)]
      intro c hc
      rcases List.mem_append.mp hc with h2 | h2
      · exact ih (n / 10) (Nat.div_lt_self (by omega) (by omega)) c h2
      · rcases List.mem_singleton.mp h2 with rfl
        exact digit_isDigit (Nat.mod_lt _ (by omega))

theorem digitsVal_append_singleton (xs : List Char) (c : Char) :
    digitsVal (xs ++ [c]) = 10 * digitsVal xs + (c.toNat - 48) := by
  simp [digitsVal, List.foldl_append]

theorem digit_toNat {k : Nat} (hk : k < 10) :
    (Char.ofNat (48 + k)).toNat = 48 + k := by
  interval_cases k <;> decide

theorem digitsVal_natStr (n : Nat) : digitsVal (natStr n).data = n := by
  induction n using Nat.strong_induction_on with
  | _ n ih =>
    by_cases h : n < 10
    · rw [natStr_data_lt h]
      simp only [digitsVal, List.foldl_cons, List.foldl_nil]
      rw [digit_toNat (Nat.mod_lt _ (by omega))]
      omega
    · rw [natStr_data_ge (by omega), digitsVal_append_singleton,
        ih (n / 10) (Nat.div_lt_self (by omega) (by omega)),
        digit_toNat (Nat.mod_lt _ (by omega))]
      omega

theorem natStr_data_ne_nil (n : Nat) : (natStr n).data ≠ [] := by
  by_cases h : n < 10
  · rw [natStr_data_lt h]; simp
  · rw [natStr_data_ge (by omega)]; simp

theorem natStr_ne_empty (n : Nat) : natStr n ≠ "" := by
  intro h
  have h2 : (natStr n).data = [] := by rw [h]
  exact natStr_data_ne_nil n h2

theorem natStr_length_pos (n : Nat) : 1 ≤ (natStr n).length := by
  have := natStr_data_ne_nil n
  have hl : (natStr n).data.length ≠ 0 := by
    intro h0
    exact this (List.length_eq_zero.mp h0)
  show 1 ≤ (natStr n).data.length
  omega

theorem takeWhile_append_of_all {p : Char → Bool} {xs : List Char}
    (ys : List Char) (hxs : ∀ c ∈ xs, p c = true) :
    (xs ++ ys).takeWhile p = xs ++ ys.takeWhile p := by
  induction xs with
  | nil => simp
  | cons a l ih =>
    have ha : p a = true := hxs a (by simp)
    simp only [List.cons_append, List.takeWhile_cons, ha, if_true]
    rw [ih (fun c hc => hxs c (by simp [hc]))]

theorem parseNatPrefix_natStr (n : Nat) (rest : List Char)
    (hrest : ∀ c, rest.head? = some c → c.isDigit = false) :
    parseNatPrefix ((natStr n).data ++ rest) = some (n, rest) := by
  have hdig := natStr_digits n
  have hrtw : rest.takeWhile Char.isDigit = [] := by
    cases rest with
    | nil => rfl
    | cons c cs =>
      have := hrest c rfl
      simp [List.takeWhile_cons, this]
  have htw : ((natStr n).data ++ rest).takeWhile Char.isDigit = (natStr n).data := by
    rw [takeWhile_append_of_all rest hdig, hrtw, List.append_nil]
  have hne := natStr_data_ne_nil n
  simp only [parseNatPrefix, htw]
  rw [if_neg (by simpa [List.isEmpty_iff] using hne)]
  rw [digitsVal_natStr, List.drop_left]


theorem dropWhile_append_singleton {p : Char → Bool} (l : List Char) {x : Char}
    (hx : p x = false) : (l ++ [x]).dropWhile p = l.dropWhile p ++ [x] := by
  induction l with
  | nil => simp [List.dropWhile, hx]
  | cons a as ih =>
    by_cases ha : p a
    · simp [List.dropWhile_cons, ha, ih]
    · simp [List.dropWhile_cons, ha]

theorem pyRstripList_cons {x : Char} (xs : List Char)
    (hx : isPySpace x = false) : pyRstripList (x :: xs) = x :: pyRstripList xs := by
  unfold pyRstripList
  rw [List.reverse_cons, dropWhile_append_singleton _ hx, List.reverse_append]
  simp

theorem pyStripList_cons {x : Char} (xs : List Char)
    (hx : isPySpace x = false) : pyStripList (x :: xs) = x :: pyRstripList xs := by
  unfold pyStripList
  rw [List.dropWhile_cons, if_neg (by simp [hx]), pyRstripList_cons xs hx]

theorem pyStartswith_append (a b : String) : pyStartswith (a ++ b) a = true := by
  unfold pyStartswith
  rw [String.data_append]
  exact List.isPrefixOf_iff_prefix.mpr (List.prefix_append a.data b.data)

end PySync

/-! ## Claim C4: title-key derivation -/

namespace Step4

open PySync

theorem deriveSubTitle_eq_prefix_append (p : Nat) (t : String)
    (h : sub_issue_title_has_prefix t p = false) :
    deriveSubTitle p t = renderedPrefix p ++ t := by
  simp only [deriveSubTitle, renderedPrefix, STORY_PREFIX, h,
    Bool.false_eq_true, if_false]

theorem deriveSubTitle_startswith (p : Nat) (t : String) :
    pyStartswith (deriveSubTitle p t) (renderedPrefix p) = true := by
  by_cases h : sub_issue_title_has_prefix t p
  · unfold deriveSubTitle
    rw [if_pos h]
    exact h
  · rw [deriveSubTitle_eq_prefix_append p t (by simpa using h)]
    exact pyStartswith_append _ _

end Step4

/-- C4: child-title derivation is deterministic (a pure function of parent
number and raw title), and the `step4_full_run.py` path returns an already
fully-prefixed title unchanged.  The claim's further assertion that this
holds "in every code path that creates sub-issues from descriptors" fails:
the `step3_create_subissues.py` path applies the title template
unconditionally, so a pre-prefixed raw title receives a second prefix
(third conjunct: the step3 title always differs from the already-prefixed
stripped raw title). -/
theorem C4_title_derivation :
    (∀ p t₁ t₂, t₁ = t₂ → Step4.deriveSubTitle p t₁ = Step4.deriveSubTitle p t₂)
    ∧ (∀ p t, Step4.sub_issue_title_has_prefix t p = true →
        Step4.deriveSubTitle p t = t)
    ∧ (∀ p t, Step4.sub_issue_title_has_prefix (PySync.pyStrip t) p = true →
        Step3.issueTitle p t ≠ PySync.pyStrip t) := by
  refine ⟨fun p t₁ t₂ h => by rw [h], fun p t h => by unfold Step4.deriveSubTitle; rw [if_pos h], ?_⟩
  intro p t _ h
  have hlen : (Step3.issueTitle p t).length = (PySync.pyStrip t).length := by rw [h]
  unfold Step3.issueTitle at hlen
  simp only [String.length_append] at hlen
  have := PySync.natStr_length_pos p
  omega

/-- C4 counterexample: the step3 path double-prefixes a pre-prefixed title
(`"Story #10 – A"` for parent 10 becomes `"Story #10 – Story #10 – A"`),
refuting the claim for that code path. -/
theorem C4_counterexample :
    Step3.issueTitle 10 "Story #10 – A" = "Story #10 – Story #10 – A"
    ∧ Step3.issueTitle 10 "Story #10 – A" ≠ "Story #10 – A" := by
  constructor
  · decide
  · decide

/-- C4 witness: the amended theorem applied at parent 10 / title
`"Story #10 – A"` (step4 path keeps it unchanged) and at parent 7 / title
`"Story #7 – B"` (step3 path changes it). -/
theorem C4_witness :
    Step4.deriveSubTitle 10 "Story #10 – A" = "Story #10 – A"
    ∧ Step3.issueTitle 7 "Story #7 – B" ≠ PySync.pyStrip "Story #7 – B" :=
  ⟨C4_title_derivation.2.1 10 "Story #10 – A" (by decide),
   C4_title_derivation.2.2 7 "Story #7 – B" (by decide)⟩

/-! ## Claims C5 and C6: outline linker -/

/-- C5 (amended): for a task node line that matches the linker's node
pattern, whose title part is plain text (not a markdown link), whose
following line carries a notebook reference, and whose plain title exactly
matches a tracker issue: the line is rewritten with the title turned into a
resolved link, and the checkbox mark becomes checked when the tracker state
is `CLOSED`; for any other (open) state the outline's prior mark is kept
unchanged — the claim's "open issue yields an unchecked mark regardless of
the prior mark" does not hold. -/
theorem C5_plain_title_rewrite
    (m : String → Option OutlineLinks.LinkIssue) (line next : String)
    (pre : List Char) (mark : Char) (core trail : List Char)
    (issue : OutlineLinks.LinkIssue)
    (hmatch : OutlineLinks.first_line_match line = some (pre, mark, core, trail))
    (hnb : PySync.containsSub next "[[notebooks/" = true)
    (hplain : ((PySync.pyStripList core).head? = some '['
        && PySync.containsSub ⟨PySync.pyStripList core⟩ "](") = false)
    (hissue : m ⟨PySync.pyStripList core⟩ = some issue) :
    OutlineLinks.update_first_line m line next =
      ⟨pre ++ (if issue.state = "CLOSED" then 'x' else mark) :: ']' :: ' ' ::
        ('[' :: PySync.pyStripList core ++ ']' :: '(' :: issue.url.data ++ [')'])
        ++ trail⟩ := by
  simp only [OutlineLinks.update_first_line, hmatch, hnb, if_true, hplain,
    Bool.false_eq_true, if_false, hissue, Bool.not_false]

/-- C5 counterexample: the plain title `Alpha` exactly matches an OPEN
tracker issue while the outline's prior mark is checked; the claim requires
the rewritten node to be unchecked, but the code keeps the prior `x` mark. -/
theorem C5_counterexample :
    OutlineLinks.update_first_line
      (fun t => if t = "Alpha"
        then some ⟨"https://github.com/u/r/issues/3", "OPEN"⟩ else none)
      "  P1A[\"- [x] Alpha  " "      [[notebooks/a.ipynb]]\"]"
      = "  P1A[\"- [x] [Alpha](https://github.com/u/r/issues/3)  "
    ∧ "  P1A[\"- [x] [Alpha](https://github.com/u/r/issues/3)  "
      ≠ "  P1A[\"- [ ] [Alpha](https://github.com/u/r/issues/3)  " := by
  constructor
  · decide
  · decide

/-- C5 witness: the amended theorem at a concrete node line whose title
matches a CLOSED issue — the mark becomes `x` and the title is linked. -/
theorem C5_witness :
    OutlineLinks.update_first_line
      (fun t => if t = "Beta"
        then some ⟨"https://github.com/u/r/issues/4", "CLOSED"⟩ else none)
      "  P2B[\"- [ ] Beta  " "      [[notebooks/b.ipynb]]\"]"
      = "  P2B[\"- [x] [Beta](https://github.com/u/r/issues/4)  " := by
  have h := C5_plain_title_rewrite
    (fun t => if t = "Beta"
      then some ⟨"https://github.com/u/r/issues/4", "CLOSED"⟩ else none)
    "  P2B[\"- [ ] Beta  " "      [[notebooks/b.ipynb]]\"]"
    "  P2B[\"- [".data ' ' "Beta".data "  ".data
    ⟨"https://github.com/u/r/issues/4", "CLOSED"⟩
    (by decide) (by decide) (by decide) (by decide)
  exact h.trans (by decide)

/-- C6 (amended): a task node line whose title part is already a resolved
markdown link in the canonical form (the `[` directly follows the `] `
checkbox) is left entirely byte-identical by the linker: the link is never
altered, and — contrary to the claim — the checkbox mark is NOT refreshed
from the tracker state, because the matching pattern's `(?!\[)` lookahead
rejects such lines altogether. -/
theorem C6_already_linked_untouched
    (m : String → Option OutlineLinks.LinkIssue) (line next : String)
    (pre : List Char) (mark : Char) (rest : List Char)
    (hshape : Outline.parseNodeShape line = some (pre, mark, rest))
    (hlink : rest.head? = some '[') :
    OutlineLinks.update_first_line m line next = line := by
  have hm : OutlineLinks.first_line_match line = none := by
    simp [OutlineLinks.first_line_match, hshape, hlink]
  simp [OutlineLinks.update_first_line, hm]

/-- C6 counterexample: an already-linked node whose issue is CLOSED in the
tracker keeps its unchecked mark (the line is returned byte-identical), so
the mark does not reflect the tracker state after the pass. -/
theorem C6_counterexample :
    OutlineLinks.update_first_line
      (fun t => if t = "Alpha"
        then some ⟨"https://github.com/u/r/issues/3", "CLOSED"⟩ else none)
      "  P1A[\"- [ ] [Alpha](https://github.com/u/r/issues/3)  "
      "      [[notebooks/a.ipynb]]\"]"
      = "  P1A[\"- [ ] [Alpha](https://github.com/u/r/issues/3)  "
    ∧ PySync.containsSub
        "  P1A[\"- [ ] [Alpha](https://github.com/u/r/issues/3)  " "- [ ] ["
      = true := by
  constructor
  · decide
  · decide

/-- C6 witness: the amended theorem at a concrete already-linked node line
(CLOSED tracker issue): the line survives byte-identical. -/
theorem C6_witness :
    OutlineLinks.update_first_line
      (fun t => if t = "Gamma"
        then some ⟨"https://github.com/u/r/issues/5", "CLOSED"⟩ else none)
      "  P3C[\"- [ ] [Gamma](https://github.com/u/r/issues/5)  "
      "      [[notebooks/c.ipynb]]\"]"
      = "  P3C[\"- [ ] [Gamma](https://github.com/u/r/issues/5)  " :=
  C6_already_linked_untouched
    (fun t => if t = "Gamma"
      then some ⟨"https://github.com/u/r/issues/5", "CLOSED"⟩ else none)
    "  P3C[\"- [ ] [Gamma](https://github.com/u/r/issues/5)  "
    "      [[notebooks/c.ipynb]]\"]"
    "  P3C[\"- [".data ' ' "[Gamma](https://github.com/u/r/issues/5)  ".data
    (by decide) (by decide)

/-! ## Claims C7 and C8: progress annotator -/

/-- C7 (amended): for a resolved node line whose parent has `total = 0`
checklist children, with the show-zero policy (`INCLUDE_ZERO`) disabled, the
annotator adds no annotation — but it does NOT strip a stale annotation:
the line is returned entirely unchanged, stale annotation included, because
the rewrite branch is only entered when `total > 0` or the policy is on. -/
theorem C7_zero_total_line_unchanged
    (m : Nat → Option OutlineProgress.ProgIssue) (line : String)
    (pre : List Char) (mark : Char) (link : List Char) (num : Nat)
    (rest : List Char) (parent : OutlineProgress.ProgIssue)
    (hp : OutlineProgress.parseParentLink line = some (pre, mark, link, num, rest))
    (hm : m num = some parent)
    (ht : (OutlineProgress.compute_progress parent m).2.1 = 0) :
    OutlineProgress.annotate_line false m line = line := by
  simp only [OutlineProgress.annotate_line, hp, hm]
  rw [if_neg]
  intro hc
  rcases hc with hc | hc
  · omega
  · cases hc

/-- C7 counterexample: a resolved node line carrying the stale annotation
`(1/2 • 50%)` whose parent (issue 200) has an empty body (`total = 0`), with
zero-display disabled: the annotator returns the line unchanged, so the
stale annotation is still present after the pass — the claim requires it to
be stripped. -/
theorem C7_counterexample :
    OutlineProgress.annotate_line false
      (fun n => if n = 200 then some ⟨"open", ""⟩ else none)
      "  P1A[\"- [ ] [T](https://github.com/u/r/issues/200) (1/2 • 50%)  "
      = "  P1A[\"- [ ] [T](https://github.com/u/r/issues/200) (1/2 • 50%)  "
    ∧ PySync.containsSub
        "  P1A[\"- [ ] [T](https://github.com/u/r/issues/200) (1/2 • 50%)  "
        "(1/2 • 50%)" = true := by
  constructor
  · decide
  · decide

/-- C7 witness: the amended theorem at the concrete stale-annotation line
with a zero-children parent. -/
theorem C7_witness :
    OutlineProgress.annotate_line false
      (fun n => if n = 300 then some ⟨"open", "no checklist here"⟩ else none)
      "  P2B[\"- [x] [U](https://github.com/u/r/issues/300) (2/3 • 67%)  "
      = "  P2B[\"- [x] [U](https://github.com/u/r/issues/300) (2/3 • 67%)  " :=
  C7_zero_total_line_unchanged
    (fun n => if n = 300 then some ⟨"open", "no checklist here"⟩ else none)
    "  P2B[\"- [x] [U](https://github.com/u/r/issues/300) (2/3 • 67%)  "
    "  P2B[\"- [".data 'x'
    "[U](https://github.com/u/r/issues/300)".data 300
    " (2/3 • 67%)  ".data ⟨"open", "no checklist here"⟩
    (by decide) (by decide) (by decide)

/-- C8: for a resolved node line whose parent is found in the issue map, the
computed percent is 0 when `total = 0`, and when `total > 0` the percent is
`round(closed·100 / total)` (ties to even, the Python 3 `round`) with
`closed` counting checklist children whose tracker state is `closed`, and
the rewritten line consists of the node prefix, mark, link, the rest text
with all stale annotations removed, the fresh annotation
`' (closed/total • percent%)'`, and the preserved two-space line-break
trail. -/
theorem C8_progress_annotation_format
    (m : Nat → Option OutlineProgress.ProgIssue) (line : String)
    (pre : List Char) (mark : Char) (link : List Char) (num : Nat)
    (rest : List Char) (parent : OutlineProgress.ProgIssue)
    (hp : OutlineProgress.parseParentLink line = some (pre, mark, link, num, rest))
    (hm : m num = some parent) :
    ((OutlineProgress.compute_progress parent m).2.1 = 0 →
      (OutlineProgress.compute_progress parent m).2.2 = 0)
    ∧ (0 < (OutlineProgress.compute_progress parent m).2.1 →
      (OutlineProgress.compute_progress parent m).2.2 =
        OutlineProgress.roundHalfEven
          ((OutlineProgress.compute_progress parent m).1 * 100)
          (OutlineProgress.compute_progress parent m).2.1
      ∧ ∀ includeZero,
        OutlineProgress.annotate_line includeZero m line =
          ⟨pre ++ mark :: ']' :: ' ' :: link ++
            (if [' ', ' '].isSuffixOf (OutlineProgress.removeAnnotations rest)
              then (OutlineProgress.removeAnnotations rest).take
                ((OutlineProgress.removeAnnotations rest).length - 2)
              else OutlineProgress.removeAnnotations rest) ++
            (" (" ++ PySync.natStr (OutlineProgress.compute_progress parent m).1 ++
              "/" ++ PySync.natStr (OutlineProgress.compute_progress parent m).2.1 ++
              " • " ++ PySync.natStr (OutlineProgress.compute_progress parent m).2.2 ++
              "%)").data ++
            (if [' ', ' '].isSuffixOf (OutlineProgress.removeAnnotations rest)
              then [' ', ' '] else ([] : List Char))⟩) := by
  constructor
  · intro h0
    simp only [OutlineProgress.compute_progress] at h0 ⊢
    rw [if_pos h0]
  · intro hpos
    constructor
    · simp only [OutlineProgress.compute_progress] at hpos ⊢
      rw [if_neg (by omega)]
    · intro iz
      simp only [OutlineProgress.annotate_line, hp, hm]
      rw [if_pos (Or.inl hpos)]
      by_cases hsuf : [' ', ' '].isSuffixOf
          (OutlineProgress.removeAnnotations rest) = true
      · simp [hsuf]
      · simp only [Bool.not_eq_true] at hsuf
        simp [hsuf]

/-- C8 witness: the annotation for `closed = 3`, `total = 7` is
`(3/7 • 43%)`, at a concrete resolved node line whose parent body lists
seven checklist children of which three are closed. -/
theorem C8_witness :
    OutlineProgress.annotate_line false
      (fun n =>
        if n = 100 then some ⟨"open",
          "- [ ] #1\n- [ ] #2\n- [ ] #3\n- [ ] #4\n- [ ] #5\n- [ ] #6\n- [ ] #7"⟩
        else if n ≤ 3 then some ⟨"closed", ""⟩
        else if n ≤ 7 then some ⟨"open", ""⟩ else none)
      "  P1A[\"- [ ] [T](https://github.com/u/r/issues/100) (1/2 • 50%)  "
      = "  P1A[\"- [ ] [T](https://github.com/u/r/issues/100) (3/7 • 43%)  " := by
  have h := (C8_progress_annotation_format
    (fun n =>
      if n = 100 then some ⟨"open",
        "- [ ] #1\n- [ ] #2\n- [ ] #3\n- [ ] #4\n- [ ] #5\n- [ ] #6\n- [ ] #7"⟩
      else if n ≤ 3 then some ⟨"closed", ""⟩
      else if n ≤ 7 then some ⟨"open", ""⟩ else none)
    "  P1A[\"- [ ] [T](https://github.com/u/r/issues/100) (1/2 • 50%)  "
    "  P1A[\"- [".data ' ' "[T](https://github.com/u/r/issues/100)".data 100
    " (1/2 • 50%)  ".data
    ⟨"open",
      "- [ ] #1\n- [ ] #2\n- [ ] #3\n- [ ] #4\n- [ ] #5\n- [ ] #6\n- [ ] #7"⟩
    (by decide) (by decide)).2 (by decide)
  exact (h.2 false).trans (by decide)

/-! ## Claim C9: builder-mode determinism -/

theorem childCells_eraseIds (ip : Bool) (f g : Nat → String) :
    ∀ (chs : List TemplateNb.NbIssue) (k₁ k₂ : Nat),
      (TemplateNb.childCells ip f chs k₁).map (fun c => { c with id := none })
        = (TemplateNb.childCells ip g chs k₂).map (fun c => { c with id := none }) := by
  intro chs
  induction chs with
  | nil => intro k₁ k₂; rfl
  | cons ch rest ih =>
    intro k₁ k₂
    by_cases hip : ip = true
    · subst hip
      simp only [TemplateNb.childCells, if_true, List.map_cons]
      rw [ih (k₁ + 2) (k₂ + 2)]
    · have hip' : ip = false := by simpa using hip
      subst hip'
      simp only [TemplateNb.childCells, Bool.false_eq_true, if_false, List.map_cons]
      rw [ih (k₁ + 1) (k₂ + 1)]

/-- C9 (amended): builder-mode notebook construction is a function of only
the parent issue content and the child issue contents once the opaque
fresh cell ids are erased: any two runs on equal `(parent, children)` inputs
produce identical cell sequences (types and sources), whatever the id
supply.  The raw structures are NOT identical across runs, since every cell
id comes from `uuid.uuid4()` (see the counterexample). -/
theorem C9_builder_deterministic_up_to_ids
    (parent : TemplateNb.NbIssue) (children : List TemplateNb.NbIssue)
    (ip : Bool) (f g : Nat → String) :
    TemplateNb.eraseIds (TemplateNb.build_notebook_json parent children ip f)
      = TemplateNb.eraseIds (TemplateNb.build_notebook_json parent children ip g) := by
  have hpre : (TemplateNb.preambleCells parent children f).map
        (fun c => { c with id := none })
      = (TemplateNb.preambleCells parent children g).map
        (fun c => { c with id := none }) := by
    by_cases hd : TemplateNb.sanitize_description parent.body = "" <;>
      by_cases hc : children = [] <;>
      simp [TemplateNb.preambleCells, hd, hc]
  simp only [TemplateNb.eraseIds, TemplateNb.build_notebook_json,
    TemplateNb.Notebook.mk.injEq, List.map_append]
  rw [hpre, childCells_eraseIds ip f g children
    (TemplateNb.preambleCells parent children f).length
    (TemplateNb.preambleCells parent children g).length]

/-- C9 counterexample: two builder-mode runs on the same `(parent, children)`
input but different run-time id draws produce different notebook
structures, refuting the claim that the produced structures are identical. -/
theorem C9_counterexample :
    TemplateNb.build_notebook_json
      ⟨1, "T", "https://github.com/u/r/issues/1", "open", ""⟩ [] false
      (fun _ => "a")
    ≠ TemplateNb.build_notebook_json
      ⟨1, "T", "https://github.com/u/r/issues/1", "open", ""⟩ [] false
      (fun _ => "b") := by
  decide

/-! ## Claim C10: task-cache tolerance -/

/-- C10: loading cached tasks is total and tolerant — a missing file, an
unreadable / non-JSON file, a JSON value that is not a list, or a list whose
entries carry no title all yield the empty task list, and an empty cache
result makes the task-obtaining step of `process_parent` fall through to the
decomposition service (`call_gpt`) result. -/
theorem C10_cache_tolerant :
    (∀ gpt : List Cache.CachedTask, Cache.obtain_tasks true false none gpt = gpt)
    ∧ (∀ gpt : List Cache.CachedTask,
        Cache.obtain_tasks true false (some none) gpt = gpt)
    ∧ (∀ (j : Cache.Json) (gpt : List Cache.CachedTask),
        (∀ xs, j ≠ Cache.Json.arr xs) →
        Cache.obtain_tasks true false (some (some j)) gpt = gpt)
    ∧ (∀ (xs : List Cache.Json) (gpt : List Cache.CachedTask),
        (∀ it ∈ xs, ∀ fields, it = Cache.Json.obj fields →
          Cache.lookupKey fields "title" = none) →
        Cache.obtain_tasks true false (some (some (Cache.Json.arr xs))) gpt = gpt)
    ∧ (∀ (file : Option (Option Cache.Json)) (gpt : List Cache.CachedTask),
        Cache.load_cached_tasks true file = [] →
        Cache.obtain_tasks true false file gpt = gpt) := by
  have hfall : ∀ (file : Option (Option Cache.Json)) (gpt : List Cache.CachedTask),
      Cache.load_cached_tasks true file = [] →
      Cache.obtain_tasks true false file gpt = gpt := by
    intro file gpt h
    simp [Cache.obtain_tasks, h]
  refine ⟨fun gpt => hfall none gpt rfl, fun gpt => hfall (some none) gpt rfl,
    ?_, ?_, hfall⟩
  · intro j gpt hj
    refine hfall _ gpt ?_
    cases j with
    | arr xs => exact absurd rfl (hj xs)
    | null => rfl
    | bool b => rfl
    | num n => rfl
    | str s => rfl
    | obj fields => rfl
  · intro xs gpt hx
    refine hfall _ gpt ?_
    simp only [Cache.load_cached_tasks, Bool.not_true, Bool.false_eq_true,
      if_false]
    rw [List.filterMap_eq_nil_iff]
    intro it hit
    cases it with
    | null => rfl
    | bool b => rfl
    | num n => rfl
    | str s => rfl
    | arr ys => rfl
    | obj fields =>
      have h := hx (Cache.Json.obj fields) hit fields rfl
      simp only [h]

/-- C10 witness: a cache file holding the non-list JSON text `"not a list"`
yields the decomposition result unchanged. -/
theorem C10_witness :
    Cache.obtain_tasks true false (some (some (Cache.Json.str "not a list")))
      [⟨Cache.Json.str "A", Cache.Json.str ""⟩]
      = [⟨Cache.Json.str "A", Cache.Json.str ""⟩] :=
  C10_cache_tolerant.2.2.1 (Cache.Json.str "not a list")
    [⟨Cache.Json.str "A", Cache.Json.str ""⟩]
    (fun _ h => Cache.Json.noConfusion h)

/-! ## Claim C3: notebook merge-mode cell preservation -/

namespace TemplateNb

theorem refreshedHeaderCell_cellType (first : NbCell) (parent : NbIssue)
    (rs : Bool) : (refreshedHeaderCell first parent rs).cellType = first.cellType := by
  simp only [refreshedHeaderCell]
  split <;> rfl

theorem update_header_cell_spec (nb : Notebook) (parent : NbIssue)
    (rs : Bool) (f : Nat → String) (k : Nat) :
    (update_header_cell nb parent rs f k).1.cells.length = nb.cells.length
    ∧ (∀ i, i < nb.cells.length →
        (update_header_cell nb parent rs f k).1.cells[i]?.map NbCell.cellType
          = nb.cells[i]?.map NbCell.cellType)
    ∧ (∀ i, 0 < i →
        (update_header_cell nb parent rs f k).1.cells[i]? = nb.cells[i]?) := by
  match hcells : nb.cells with
  | [] => simp [update_header_cell, hcells]
  | first :: rest =>
    simp only [update_header_cell, hcells]
    by_cases htype : first.cellType ≠ "markdown"
    · rw [if_pos htype]
      exact ⟨by rw [hcells], fun i _ => by rw [hcells], fun i _ => by rw [hcells]⟩
    · rw [if_neg htype]
      have htype1 : (refreshedHeaderCell first parent rs).cellType = first.cellType :=
        refreshedHeaderCell_cellType first parent rs
      by_cases hid : (refreshedHeaderCell first parent rs).id = none
      · rw [if_pos hid]
        refine ⟨by simp, ?_, ?_⟩
        · intro i hi
          cases i with
          | zero => simp [htype1]
          | succ j => simp
        · intro i hpos
          cases i with
          | zero => omega
          | succ j => simp
      · rw [if_neg hid]
        refine ⟨by simp, ?_, ?_⟩
        · intro i hi
          cases i with
          | zero => simp [htype1]
          | succ j => simp
        · intro i hpos
          cases i with
          | zero => omega
          | succ j => simp

theorem ensureCellIds_spec (f : Nat → String) : ∀ (cs : List NbCell) (k : Nat),
    (ensureCellIds f cs k).1.length = cs.length
    ∧ (ensureCellIds f cs k).1.map cellContent = cs.map cellContent := by
  intro cs
  induction cs with
  | nil => intro k; exact ⟨rfl, rfl⟩
  | cons c rest ih =>
    intro k
    by_cases hid : c.id = none
    · simp only [ensureCellIds, hid, if_pos]
      refine ⟨by simp [(ih (k + 1)).1], ?_⟩
      simp only [List.map_cons, (ih (k + 1)).2]
      rfl
    · simp only [ensureCellIds, hid, if_neg, if_false]
      refine ⟨by simp [(ih k).1], ?_⟩
      simp only [List.map_cons, (ih k).2]

theorem append_sections_cells (nb : Notebook) (children : List NbIssue)
    (ip : Bool) (f : Nat → String) (k : Nat) :
    ∃ extra, (append_new_subissue_sections nb children ip f k).cells
      = nb.cells ++ extra := by
  simp only [append_new_subissue_sections]
  split
  · exact ⟨[], by simp⟩
  · split
    · exact ⟨_, List.append_assoc _ _ _⟩
    · exact ⟨_, rfl⟩

end TemplateNb

/-- C3: merge-mode notebook reconciliation never deletes a cell, never
reorders cells, and rewrites the content of no cell other than the first:
the merged notebook is at least as long, every pre-existing index holds a
cell of the unchanged cell type, and every pre-existing index other than 0
holds the unchanged source text (user-authored cells survive; new cells
appear only beyond the original length, i.e. appended at the end). -/
theorem C3_merge_preserves_cells (nb : TemplateNb.Notebook)
    (parent : TemplateNb.NbIssue) (children : List TemplateNb.NbIssue)
    (rs ip : Bool) (f : Nat → String) :
    nb.cells.length
      ≤ (TemplateNb.mergeNotebook nb parent children rs ip f).cells.length
    ∧ (∀ i, i < nb.cells.length →
        (TemplateNb.mergeNotebook nb parent children rs ip f).cells[i]?.map
            TemplateNb.NbCell.cellType
          = nb.cells[i]?.map TemplateNb.NbCell.cellType)
    ∧ (∀ i, 0 < i → i < nb.cells.length →
        (TemplateNb.mergeNotebook nb parent children rs ip f).cells[i]?.map
            TemplateNb.NbCell.source
          = nb.cells[i]?.map TemplateNb.NbCell.source) := by
  obtain ⟨huL, huT, huI⟩ := TemplateNb.update_header_cell_spec nb parent rs f 0
  obtain ⟨heL, heC⟩ := TemplateNb.ensureCellIds_spec f
    (TemplateNb.update_header_cell nb parent rs f 0).1.cells
    (TemplateNb.update_header_cell nb parent rs f 0).2
  obtain ⟨extra, hex⟩ := TemplateNb.append_sections_cells
    ⟨(TemplateNb.ensureCellIds f
        (TemplateNb.update_header_cell nb parent rs f 0).1.cells
        (TemplateNb.update_header_cell nb parent rs f 0).2).1⟩
    children ip f
    (TemplateNb.ensureCellIds f
        (TemplateNb.update_header_cell nb parent rs f 0).1.cells
        (TemplateNb.update_header_cell nb parent rs f 0).2).2
  have hm : (TemplateNb.mergeNotebook nb parent children rs ip f).cells
      = (TemplateNb.ensureCellIds f
          (TemplateNb.update_header_cell nb parent rs f 0).1.cells
          (TemplateNb.update_header_cell nb parent rs f 0).2).1 ++ extra := by
    rw [TemplateNb.mergeNotebook]
    exact hex
  have hlen : (TemplateNb.ensureCellIds f
      (TemplateNb.update_header_cell nb parent rs f 0).1.cells
      (TemplateNb.update_header_cell nb parent rs f 0).2).1.length
      = nb.cells.length := by rw [heL, huL]
  have hgetPre : ∀ i, i < nb.cells.length →
      (TemplateNb.mergeNotebook nb parent children rs ip f).cells[i]?
        = (TemplateNb.ensureCellIds f
            (TemplateNb.update_header_cell nb parent rs f 0).1.cells
            (TemplateNb.update_header_cell nb parent rs f 0).2).1[i]? := by
    intro i hi
    rw [hm, List.getElem?_append, if_pos (by omega)]
  have hcont : ∀ i : Nat,
      (TemplateNb.ensureCellIds f
          (TemplateNb.update_header_cell nb parent rs f 0).1.cells
          (TemplateNb.update_header_cell nb parent rs f 0).2).1[i]?.map
        TemplateNb.cellContent
        = (TemplateNb.update_header_cell nb parent rs f 0).1.cells[i]?.map
          TemplateNb.cellContent := by
    intro i
    have h := congrArg (fun l : List (String × List String) => l[i]?) heC
    simpa [List.getElem?_map] using h
  refine ⟨?_, ?_, ?_⟩
  · rw [hm, List.length_append, hlen]
    omega
  · intro i hi
    rw [hgetPre i hi]
    have h1 := hcont i
    have h2 := huT i hi
    have hc : ∀ (o₁ o₂ : Option TemplateNb.NbCell),
        o₁.map TemplateNb.cellContent = o₂.map TemplateNb.cellContent →
        o₁.map TemplateNb.NbCell.cellType = o₂.map TemplateNb.NbCell.cellType := by
      intro o₁ o₂ h
      cases o₁ <;> cases o₂ <;> simp_all [TemplateNb.cellContent]
    rw [hc _ _ h1, h2]
  · intro i hpos hi
    rw [hgetPre i hi]
    have h1 := hcont i
    have h2 := huI i hpos
    have hc : ∀ (o₁ o₂ : Option TemplateNb.NbCell),
        o₁.map TemplateNb.cellContent = o₂.map TemplateNb.cellContent →
        o₁.map TemplateNb.NbCell.source = o₂.map TemplateNb.NbCell.source := by
      intro o₁ o₂ h
      cases o₁ <;> cases o₂ <;> simp_all [TemplateNb.cellContent]
    rw [hc _ _ h1, h2]

/-- C3 witness: merging a concrete three-cell notebook (header with missing
id, a user code cell, an existing section cell) keeps the length
non-decreasing, the cell types at indices 0-2, and the sources at indices
1-2. -/
theorem C3_witness :
    (TemplateNb.mergeNotebook
        ⟨[⟨none, "markdown", ["# Old Title"]⟩,
          ⟨some "u1", "code", ["print(1)"]⟩,
          ⟨some "u2", "markdown", ["### Sub-issue #5: Child A"]⟩]⟩
        ⟨1, "Story One", "https://github.com/u/r/issues/1", "open", ""⟩
        [⟨9, "Child B", "https://github.com/u/r/issues/9", "closed", ""⟩]
        false false (fun n => PySync.natStr n)).cells[1]?.map
      TemplateNb.NbCell.source = some ["print(1)"] := by
  have h := (C3_merge_preserves_cells
    ⟨[⟨none, "markdown", ["# Old Title"]⟩,
      ⟨some "u1", "code", ["print(1)"]⟩,
      ⟨some "u2", "markdown", ["### Sub-issue #5: Child A"]⟩]⟩
    ⟨1, "Story One", "https://github.com/u/r/issues/1", "open", ""⟩
    [⟨9, "Child B", "https://github.com/u/r/issues/9", "closed", ""⟩]
    false false (fun n => PySync.natStr n)).2.2 1 (by decide) (by decide)
  exact h.trans (by decide)

/-! ## Claim C2: checklist merge safety -/

namespace Step4

open PySync

theorem checklistEntryLine_data (t : Nat → String) (n : Nat) :
    (checklistEntryLine t n).data
      = '-' :: ' ' :: '[' :: ' ' :: ']' :: ' ' :: '#' ::
        ((natStr n).data ++ (' ' :: '—' :: ' ' :: (t n).data)) := by
  show (("- [ ] #" ++ natStr n ++ " — ") ++ t n).data = _
  rw [String.data_append, String.data_append, String.data_append]
  simp

theorem parseChecklistNum_entryLine (t : Nat → String) (n : Nat) :
    parseChecklistNum (checklistEntryLine t n) = some n := by
  have hr : ∀ c : Char, (' ' :: '—' :: ' ' :: (t n).data).head? = some c →
      c.isDigit = false := by
    intro c hc
    simp only [List.head?_cons, Option.some.injEq] at hc
    subst hc
    decide
  simp only [parseChecklistNum, checklistEntryLine_data]
  rw [if_neg (by decide), parseNatPrefix_natStr n _ hr]

theorem isSubIssuesHeader_entryLine (t : Nat → String) (n : Nat) :
    isSubIssuesHeader (checklistEntryLine t n) = false := by
  simp only [isSubIssuesHeader, pyStartswith, pyLower, pyStrip,
    checklistEntryLine_data]
  rw [show pyStripList ('-' :: ' ' :: '[' :: ' ' :: ']' :: ' ' :: '#' ::
      ((natStr n).data ++ (' ' :: '—' :: ' ' :: (t n).data)))
    = '-' :: pyRstripList (' ' :: '[' :: ' ' :: ']' :: ' ' :: '#' ::
      ((natStr n).data ++ (' ' :: '—' :: ' ' :: (t n).data)))
    from pyStripList_cons _ (by decide)]
  simp [List.isPrefixOf]

theorem filterMap_parse_entryLines (t : Nat → String) : ∀ (ns : List Nat),
    (ns.map (checklistEntryLine t)).filterMap parseChecklistNum = ns := by
  intro ns
  induction ns with
  | nil => rfl
  | cons n rest ih =>
    simp only [List.map_cons, List.filterMap_cons, parseChecklistNum_entryLine, ih]

/-- The successful branch of `append_checklist` decomposed: old lines,
a separator segment (blank line and/or section header), then one fresh entry
line per number to add. -/
theorem appendChecklistLines_shape (body : String) (nums : List Nat)
    (t : Nat → String) (ls : List String)
    (h : appendChecklistLines body nums t = some ls) :
    ∃ mid, ls = pySplitlines (pyRstrip body) ++ (mid ++
        ((nums.filter fun n =>
          !(extract_existing_child_numbers body).contains n).map
          (checklistEntryLine t)))
    ∧ (∀ l ∈ mid, parseChecklistNum l = none)
    ∧ mid.countP isSubIssuesHeader ≤ 1
    ∧ ((pySplitlines (pyRstrip body)).any isSubIssuesHeader = true →
        mid.countP isSubIssuesHeader = 0) := by
  simp only [appendChecklistLines] at h
  by_cases h0 : nums.isEmpty = true
  · rw [if_pos h0] at h
    cases h
  · rw [if_neg h0] at h
    by_cases h1 : (nums.filter fun n =>
        !(extract_existing_child_numbers body).contains n).isEmpty = true
    · rw [if_pos h1] at h
      cases h
    · rw [if_neg h1] at h
      by_cases h2 : (pySplitlines (pyRstrip body) ≠ [] &&
          pyStrip ((pySplitlines (pyRstrip body)).getLastD "") ≠ "") = true
      · rw [if_pos h2] at h
        by_cases h3 : (pySplitlines (pyRstrip body) ++ [""]).any isSubIssuesHeader = true
        · rw [if_neg (by simp [h3])] at h
          refine ⟨[""], ?_, ?_, ?_, ?_⟩
          · rw [← Option.some.injEq, ← h]
            simp
          · intro l hl
            rcases List.mem_singleton.mp hl with rfl
            rfl
          · decide
          · intro _
            decide
        · rw [if_pos (by simpa using h3)] at h
          refine ⟨["", "### Sub-issues"], ?_, ?_, ?_, ?_⟩
          · rw [← Option.some.injEq, ← h]
            simp
          · intro l hl
            rcases List.mem_cons.mp hl with rfl | hl
            · rfl
            · rcases List.mem_singleton.mp hl with rfl
              rfl
          · decide
          · intro hany
            exact absurd (by simp [hany]) h3
      · rw [if_neg h2] at h
        by_cases h3 : (pySplitlines (pyRstrip body)).any isSubIssuesHeader = true
        · rw [if_neg (by simp [h3])] at h
          refine ⟨[], ?_, ?_, ?_, ?_⟩
          · rw [← Option.some.injEq, ← h]
            simp
          · intro l hl
            cases hl
          · decide
          · intro _
            decide
        · rw [if_pos (by simpa using h3)] at h
          refine ⟨["### Sub-issues"], ?_, ?_, ?_, ?_⟩
          · rw [← Option.some.injEq, ← h]
            simp
          · intro l hl
            rcases List.mem_singleton.mp hl with rfl
            rfl
          · decide
          · intro hany
            exact absurd hany h3

theorem filter_not_contains_sublist (body : String) (nums : List Nat) :
    List.Sublist (nums.filter fun n =>
      !(extract_existing_child_numbers body).contains n) nums :=
  List.filter_sublist nums

end Step4

/-- C2: the checklist merge (a) keeps every pre-existing line, in order, as
a prefix of the result (never removes or reorders them); (b) appends no
checklist line for a child number already referenced in the body; (c)
appends the `### Sub-issues` header at most once, and not at all when the
body already has one; (d) the appended checklist entries reference, in
order, a sublist of the requested child numbers, each not already present;
and (e) when every requested number is already present (or none is
requested) nothing is written at all. -/
theorem C2_checklist_merge (body : String) (nums : List Nat) (t : Nat → String) :
    (∀ ls, Step4.appendChecklistLines body nums t = some ls →
      PySync.pySplitlines (PySync.pyRstrip body) <+: ls
      ∧ (∀ n, (Step4.extract_existing_child_numbers body).contains n = true →
          ∀ l ∈ ls.drop (PySync.pySplitlines (PySync.pyRstrip body)).length,
            Step4.parseChecklistNum l ≠ some n)
      ∧ (ls.drop (PySync.pySplitlines (PySync.pyRstrip body)).length).countP
          Step4.isSubIssuesHeader ≤ 1
      ∧ ((PySync.pySplitlines (PySync.pyRstrip body)).any
            Step4.isSubIssuesHeader = true →
          (ls.drop (PySync.pySplitlines (PySync.pyRstrip body)).length).countP
            Step4.isSubIssuesHeader = 0)
      ∧ ∃ addNums, List.Sublist addNums nums
          ∧ (∀ n ∈ addNums,
              (Step4.extract_existing_child_numbers body).contains n = false)
          ∧ (ls.drop (PySync.pySplitlines (PySync.pyRstrip body)).length).filterMap
              Step4.parseChecklistNum = addNums)
    ∧ ((∀ n ∈ nums,
          (Step4.extract_existing_child_numbers body).contains n = true) →
        Step4.append_checklist body nums t = none) := by
  constructor
  · intro ls h
    obtain ⟨mid, hls, hmidNone, hmidCount, hmidZero⟩ :=
      Step4.appendChecklistLines_shape body nums t ls h
    have hdrop : ls.drop (PySync.pySplitlines (PySync.pyRstrip body)).length
        = mid ++ ((nums.filter fun n =>
            !(Step4.extract_existing_child_numbers body).contains n).map
            (Step4.checklistEntryLine t)) := by
      rw [hls, List.drop_left]
    have hentZero : ((nums.filter fun n =>
        !(Step4.extract_existing_child_numbers body).contains n).map
        (Step4.checklistEntryLine t)).countP Step4.isSubIssuesHeader = 0 := by
      rw [List.countP_eq_zero]
      intro l hl
      obtain ⟨m, hmem, rfl⟩ := List.mem_map.mp hl
      simp [Step4.isSubIssuesHeader_entryLine]
    refine ⟨⟨_, hls.symm⟩, ?_, ?_, ?_, ?_⟩
    · intro n hn l hl
      rw [hdrop] at hl
      rcases List.mem_append.mp hl with hm | he
      · rw [hmidNone l hm]
        simp
      · obtain ⟨m, hmem, rfl⟩ := List.mem_map.mp he
        rw [Step4.parseChecklistNum_entryLine]
        intro heq
        obtain rfl : m = n := by simpa using heq
        have hmf := (List.mem_filter.mp hmem).2
        rw [hn] at hmf
        cases hmf
    · rw [hdrop, List.countP_append, hentZero]
      omega
    · intro hany
      rw [hdrop, List.countP_append, hentZero, hmidZero hany]
    · refine ⟨_, Step4.filter_not_contains_sublist body nums, ?_, ?_⟩
      · intro n hn
        have := (List.mem_filter.mp hn).2
        simpa using this
      · rw [hdrop, List.filterMap_append,
          List.filterMap_eq_nil_iff.mpr hmidNone,
          Step4.filterMap_parse_entryLines]
        simp
  · intro hall
    have hnil : (nums.filter fun n =>
        !(Step4.extract_existing_child_numbers body).contains n) = [] := by
      rw [List.filter_eq_nil_iff]
      intro n hn
      simpa using hall n hn
    simp only [Step4.append_checklist, Step4.appendChecklistLines, hnil]
    by_cases h0 : nums.isEmpty = true
    · rw [if_pos h0]
      rfl
    · rw [if_neg h0]
      rfl

/-- C2 witness: the merge of `[5, 9]` into a body already listing `#5`
appends only the `#9` entry after the preserved old lines, and a merge whose
every requested number is already present writes nothing. -/
theorem C2_witness :
    PySync.pySplitlines (PySync.pyRstrip
        "Body text\n\n### Sub-issues\n- [ ] #5 — old\n")
      <+: ["Body text", "", "### Sub-issues", "- [ ] #5 — old", "",
        "- [ ] #9 — T9"]
    ∧ Step4.append_checklist "- [ ] #5" [5] (fun n => "T" ++ PySync.natStr n)
      = none := by
  constructor
  · exact (C2_checklist_merge "Body text\n\n### Sub-issues\n- [ ] #5 — old\n"
      [5, 9] (fun n => "T" ++ PySync.natStr n)).1
      ["Body text", "", "### Sub-issues", "- [ ] #5 — old", "",
        "- [ ] #9 — T9"] (by decide) |>.1
  · exact (C2_checklist_merge "- [ ] #5" [5]
      (fun n => "T" ++ PySync.natStr n)).2 (by decide)

/-! ## Claim C1: second-run idempotence -/

namespace Step4

open PySync

theorem mem_existing_titles (p : Nat) (issues : List Issue) (tt : String)
    (hpre : pyStartswith tt (renderedPrefix p) = true)
    (hmem : tt ∈ issues.map Issue.title) :
    tt ∈ (existing_subissue_titles_for p issues).map Prod.fst := by
  induction issues with
  | nil => simp at hmem
  | cons it rest ih =>
    simp only [List.map_cons, List.mem_cons] at hmem
    rcases hmem with heq | hmem
    · subst heq
      simp [existing_subissue_titles_for, hpre]
    · have h2 := ih hmem
      by_cases hc : pyStartswith it.title (renderedPrefix p) = true
      · simp only [existing_subissue_titles_for, List.filterMap_cons, hc,
          if_pos, List.map_cons, List.mem_cons]
        right
        simpa [existing_subissue_titles_for] using h2
      · simp only [existing_subissue_titles_for, List.filterMap_cons] at h2 ⊢
        rw [if_neg hc]
        exact h2

theorem existing_titles_sub (p : Nat) (issues : List Issue) (tt : String)
    (h : tt ∈ (existing_subissue_titles_for p issues).map Prod.fst) :
    tt ∈ issues.map Issue.title := by
  induction issues with
  | nil => simp [existing_subissue_titles_for] at h
  | cons it rest ih =>
    simp only [existing_subissue_titles_for, List.filterMap_cons] at h
    by_cases hc : pyStartswith it.title (renderedPrefix p) = true
    · rw [if_pos hc] at h
      simp only [List.map_cons, List.mem_cons] at h ⊢
      rcases h with heq | h
      · exact Or.inl heq
      · exact Or.inr (ih (by simpa [existing_subissue_titles_for] using h))
    · rw [if_neg hc] at h
      simp only [List.map_cons, List.mem_cons]
      exact Or.inr (ih (by simpa [existing_subissue_titles_for] using h))

theorem createLoop_all_skip (ex : List String) (p : Nat) (pt : String)
    (f : Nat → Nat) : ∀ (ts : List Task) (k : Nat),
    (∀ task ∈ ts, ex.contains (deriveSubTitle p task.title) = true) →
    createLoop ex p pt f ts k = ([], [], ts.length) := by
  intro ts
  induction ts with
  | nil => intro k _; rfl
  | cons task rest ih =>
    intro k hall
    have hc := hall task (by simp)
    simp only [createLoop]
    rw [if_pos hc, ih k (fun task2 h2 => hall task2 (by simp [h2]))]
    simp

theorem createLoop_cover (ex : List String) (p : Nat) (pt : String)
    (f : Nat → Nat) : ∀ (ts : List Task) (k : Nat), ∀ task ∈ ts,
    ex.contains (deriveSubTitle p task.title) = true
    ∨ deriveSubTitle p task.title ∈ (createLoop ex p pt f ts k).1.map Issue.title := by
  intro ts
  induction ts with
  | nil => intro k task h; cases h
  | cons t0 rest ih =>
    intro k task htask
    rcases List.mem_cons.mp htask with rfl | hmem
    · by_cases hc : ex.contains (deriveSubTitle p task.title) = true
      · exact Or.inl hc
      · right
        simp only [createLoop]
        rw [if_neg hc]
        simp
    · by_cases hc : ex.contains (deriveSubTitle p t0.title) = true
      · rcases ih k task hmem with h | h
        · exact Or.inl h
        · right
          simp only [createLoop]
          rw [if_pos hc]
          exact h
      · rcases ih (k + 1) task hmem with h | h
        · exact Or.inl h
        · right
          simp only [createLoop]
          rw [if_neg hc]
          simp only [List.map_cons, List.mem_cons]
          exact Or.inr h

theorem titles_patchBody (issues : List Issue) (n : Nat) (w : Option String) :
    (patchBody issues n w).map Issue.title = issues.map Issue.title := by
  cases w with
  | none => rfl
  | some b =>
    simp only [patchBody, List.map_map]
    refine List.map_congr_left ?_
    intro it _
    by_cases h : it.number = n <;> simp [h]

theorem process_parent_titles (issues : List Issue) (p : Nat) (pt : String)
    (ts : List Task) (f : Nat → Nat) (t : Nat → String) :
    (∀ x ∈ issues.map Issue.title,
      x ∈ (process_parent issues p pt ts f t).1.map Issue.title)
    ∧ (∀ task ∈ ts, deriveSubTitle p task.title
        ∈ (process_parent issues p pt ts f t).1.map Issue.title) := by
  simp only [process_parent, titles_patchBody, List.map_append]
  constructor
  · intro x hx
    exact List.mem_append.mpr (Or.inl hx)
  · intro task htask
    rcases createLoop_cover
        ((existing_subissue_titles_for p issues).map Prod.fst) p pt f ts 0
        task htask with h | h
    · refine List.mem_append.mpr (Or.inl ?_)
      exact existing_titles_sub p issues _ (by simpa using h)
    · exact List.mem_append.mpr (Or.inr h)

theorem process_parent_skip (issues : List Issue) (p : Nat) (pt : String)
    (ts : List Task) (f : Nat → Nat) (t : Nat → String)
    (hall : ∀ task ∈ ts, deriveSubTitle p task.title ∈ issues.map Issue.title) :
    process_parent issues p pt ts f t = (issues, ⟨0, ts.length, false⟩) := by
  have hex : ∀ task ∈ ts,
      ((existing_subissue_titles_for p issues).map Prod.fst).contains
        (deriveSubTitle p task.title) = true := by
    intro task htask
    have hmem := mem_existing_titles p issues _
      (deriveSubTitle_startswith p task.title) (hall task htask)
    simpa using hmem
  simp only [process_parent, createLoop_all_skip _ _ _ _ ts 0 hex]
  simp [append_checklist, appendChecklistLines, patchBody]

theorem fullRun_titles (tasksOf : Nat → List Task) (numberOf : Nat → Nat → Nat)
    (titleOf : Nat → String) : ∀ (parents : List (Nat × String)) (issues : List Issue),
    (∀ x ∈ issues.map Issue.title,
      x ∈ (fullRun parents tasksOf numberOf titleOf issues).1.map Issue.title)
    ∧ (∀ pr ∈ parents, ∀ task ∈ tasksOf pr.1,
      deriveSubTitle pr.1 task.title
        ∈ (fullRun parents tasksOf numberOf titleOf issues).1.map Issue.title) := by
  intro parents
  induction parents with
  | nil =>
    intro issues
    exact ⟨fun x hx => hx, fun pr h => absurd h (List.not_mem_nil pr)⟩
  | cons pr0 rest ih =>
    intro issues
    obtain ⟨pnum, ptitle⟩ := pr0
    obtain ⟨hmono, hcover⟩ := process_parent_titles issues pnum ptitle
      (tasksOf pnum) (numberOf pnum) titleOf
    obtain ⟨ihmono, ihcover⟩ :=
      ih (process_parent issues pnum ptitle (tasksOf pnum) (numberOf pnum) titleOf).1
    constructor
    · intro x hx
      simpa [fullRun] using ihmono x (hmono x hx)
    · intro pr hpr task htask
      rcases List.mem_cons.mp hpr with rfl | hpr
      · simpa [fullRun] using ihmono _ (hcover task htask)
      · simpa [fullRun] using ihcover pr hpr task htask

theorem fullRun_all_skip (tasksOf : Nat → List Task) (numberOf : Nat → Nat → Nat)
    (titleOf : Nat → String) : ∀ (parents : List (Nat × String)) (issues : List Issue),
    (∀ pr ∈ parents, ∀ task ∈ tasksOf pr.1,
      deriveSubTitle pr.1 task.title ∈ issues.map Issue.title) →
    fullRun parents tasksOf numberOf titleOf issues
      = (issues, parents.map fun pr => ⟨0, (tasksOf pr.1).length, false⟩) := by
  intro parents
  induction parents with
  | nil => intro issues _; rfl
  | cons pr0 rest ih =>
    intro issues hall
    obtain ⟨pnum, ptitle⟩ := pr0
    have h0 := process_parent_skip issues pnum ptitle (tasksOf pnum)
      (numberOf pnum) titleOf
      (fun task htask => hall (pnum, ptitle) (by simp) task htask)
    simp only [fullRun, h0, ih issues
      (fun pr hpr task htask => hall pr (by simp [hpr]) task htask)]
    simp

end Step4

/-- C1: running the full synchronization a second time immediately after a
completed first run (same parents, same fixed decomposition descriptors per
parent, all first-run creations successful) performs zero additional
writes: the tracker state is returned unchanged, and every parent's report
shows zero created sub-issues, every task counted as skipped (its derived
title is found in the existing-title map), and no parent-body write (so no
checklist entry is appended and nothing is patched). -/
theorem C1_second_run_idempotent (parents : List (Nat × String))
    (tasksOf : Nat → List Step4.Task) (n1 n2 : Nat → Nat → Nat)
    (t1 t2 : Nat → String) (issues0 : List Step4.Issue) :
    Step4.fullRun parents tasksOf n2 t2
        (Step4.fullRun parents tasksOf n1 t1 issues0).1
      = ((Step4.fullRun parents tasksOf n1 t1 issues0).1,
        parents.map fun pr => Step4.Report.mk 0 (tasksOf pr.1).length false) :=
  Step4.fullRun_all_skip tasksOf n2 t2 parents
    (Step4.fullRun parents tasksOf n1 t1 issues0).1
    (fun pr hpr task htask =>
      (Step4.fullRun_titles tasksOf n1 t1 parents issues0).2 pr hpr task htask)
